import Mathlib

/-!
# Verification of the Dragonfly server core (`server.go`)

Shallow embedding of the connection-acceptance and player-lifecycle broker
of the Dragonfly server: construction (`New`), startup (`Run`/`Start` with
`loadWorld` and `startListening`), player admission (`Accept`, the accept
loop `run`, per-connection `handleConn`), registry queries (`PlayerCount`,
`MaxPlayerCount`, `Players`, `Player`), skin construction (`createSkin`,
`createPlayer`) and ordered shutdown (`Close`).

Go `map[uuid.UUID]*player.Player` is embedded as an association list with
key-overwriting insert; the unbuffered hand-off channel `chan *player.Player`
as an explicit mailbox state (open with pending hand-offs, or closed);
the atomic `*uint32` running flag as a `Nat`.  External collaborators
(world, minecraft listener, base64 decoding, uuid parsing) enter as
explicit parameters describing their observable outcome, exactly at the
call sites the Go code uses them.  Effects (player disconnect notices,
world close, listener close, raw-connection close, mailbox send) are
recorded in an explicit event trace in the order the Go statements execute.
-/

namespace Dragonfly

/-- A 128-bit identifier (`uuid.UUID`); embedded as a natural number. -/
def UUID : Type := Nat

instance : DecidableEq UUID := fun a b => instDecidableEqNat a b

instance (n : Nat) : OfNat UUID n := ⟨n⟩

/-- `logrus.Logger`: opaque to this core; only its identity matters
(which logger value the server stores). -/
structure Logger where
  id : Nat
deriving DecidableEq

/-- `logrus.New()`: a freshly created default logger. -/
def logrusNew : Logger := ⟨0⟩

/-- `Config.Network` section as consumed by `server.go`
(`server.c.Network.Address`). -/
structure ConfigNetwork where
  Address : String
deriving DecidableEq

/-- `Config.Server` section as consumed by `server.go`
(`Name`, `MaximumPlayers`, `ShutdownMessage`). -/
structure ConfigServerSection where
  Name : String
  MaximumPlayers : Int
  ShutdownMessage : String
deriving DecidableEq

/-- `Config.World` section as consumed by `server.go`
(`Name`, `Folder`, `MaximumChunkRadius`). -/
structure ConfigWorldSection where
  Name : String
  Folder : String
  MaximumChunkRadius : Int
deriving DecidableEq

/-- The server `Config` value, with the three sections `server.go` reads. -/
structure Config where
  Network : ConfigNetwork
  Server : ConfigServerSection
  World : ConfigWorldSection
deriving DecidableEq

/-- Modelled from the spec: `DefaultConfig()` lives in the repository's
config file, which is not among the provided sources.  The spec only
requires that a nil `Config` argument makes `New` fall back to this
default snapshot; its concrete field values are immaterial to every
claim, so an arbitrary fixed snapshot stands for it. -/
def DefaultConfig : Config :=
  { Network := { Address := ":19132" }
    Server := { Name := "Dragonfly Server", MaximumPlayers := 0,
                ShutdownMessage := "Server closed." }
    World := { Name := "World", Folder := "world", MaximumChunkRadius := 32 } }

/-- A three-component vector (`mgl32.Vec3`); components embedded as exact
rationals, since the claims about positions concern which offset is applied
and that two syntactically parallel computations agree, not IEEE rounding. -/
structure Vec3 where
  x : ℚ
  y : ℚ
  z : ℚ
deriving DecidableEq

/-- Componentwise `Vec3.Add`. -/
def Vec3.add (a b : Vec3) : Vec3 := ⟨a.x + b.x, a.y + b.y, a.z + b.z⟩

/-- Modelled from the spec: `skin.AnimationType` lives in the repository's
`player/skin` package, which is not among the provided sources.  The spec
names three variants (head, body-32×32, body-128×128) and an unset/default
variant that unrecognized tags map to; `animationNone` is the zero value a
Go `var t skin.AnimationType` declaration starts from. -/
inductive AnimationType where
  | animationNone
  | animationHead
  | animationBody32x32
  | animationBody128x128
deriving DecidableEq

/-- The protocol-level animation variant tag (`protocol.SkinAnimation*`
constants of the external protocol library): the three recognized tags,
plus any other wire value. -/
inductive SkinAnimationTag where
  | tagHead
  | tagBody32x32
  | tagBody128x128
  | tagOther (n : Nat)
deriving DecidableEq

/-- One entry of `login.ClientData.AnimatedImageData`
(`protocol.SkinAnimation`): base64 image, dimensions, frame count, tag. -/
structure SkinAnimationData where
  Image : String
  ImageWidth : Nat
  ImageHeight : Nat
  Frames : Int
  typ : SkinAnimationTag
deriving DecidableEq

/-- The fields of `login.ClientData` that `createSkin` reads. -/
structure ClientData where
  SkinData : String
  SkinGeometry : String
  SkinResourcePatch : String
  SkinImageWidth : Nat
  SkinImageHeight : Nat
  AnimatedImageData : List SkinAnimationData
deriving DecidableEq

/-- `skin.ModelConfig`, the decoded resource-patch model configuration;
opaque to this core. -/
structure ModelConfig where
  data : List Nat
deriving DecidableEq

/-- One skin animation (`skin.Animation`): pixel buffer, dimensions,
frame count and variant type. -/
structure Animation where
  Pix : List Nat
  ImageWidth : Nat
  ImageHeight : Nat
  FrameCount : Int
  typ : AnimationType
deriving DecidableEq

/-- Modelled from the spec: `skin.NewAnimation(w, h, t)` of the missing
`player/skin` package returns an animation with the given dimensions and
variant type and zeroed pixel/frame data. -/
def NewAnimation (w h : Nat) (t : AnimationType) : Animation :=
  { Pix := [], ImageWidth := w, ImageHeight := h, FrameCount := 0, typ := t }

/-- `skin.Skin`: pixel buffer, geometry/model bytes, model configuration
and the ordered animation sequence. -/
structure Skin where
  ImageWidth : Nat
  ImageHeight : Nat
  Pix : List Nat
  Model : List Nat
  ModelConfig : ModelConfig
  Animations : List Animation
deriving DecidableEq

/-- Modelled from the spec: `skin.New(w, h)` of the missing `player/skin`
package returns a skin of the given dimensions with empty buffers. -/
def skinNew (w h : Nat) : Skin :=
  { ImageWidth := w, ImageHeight := h, Pix := [], Model := [],
    ModelConfig := ⟨[]⟩, Animations := [] }

/-- The domain player value produced by `createPlayer`
(`player.NewWithSession(name, xuid, id, skin, session, pos)`). -/
structure Player where
  name : String
  xuid : String
  uid : UUID
  skin : Skin
  pos : Vec3
deriving DecidableEq

/-- The hand-off mailbox `server.players` (`chan *player.Player`):
either still open, holding the players handed off (in hand-off order)
and not yet received, or closed by the accept loop. -/
inductive Mailbox where
  | openM (pending : List Player)
  | closedM
deriving DecidableEq

/-- The `Server` struct fields this verification tracks: the atomic
`started` flag, config snapshot, logger, registry map `p`, the hand-off
mailbox, and the observable lifecycle state of the world and listener
collaborators. -/
structure Server where
  started : Nat
  c : Config
  log : Logger
  p : List (UUID × Player)
  players : Mailbox
  worldLoaded : Bool
  listenerBound : Bool
  listenerClosed : Bool
deriving DecidableEq

/-- `New(c, log)`: nil config → `DefaultConfig()`, non-nil config →
value copied (`s.c = *c`); nil logger → `logrus.New()`.  The registry
starts empty, the hand-off channel open, the flag at 0 (`new(uint32)`). -/
def New (c : Option Config) (log : Option Logger) : Server :=
  let log := match log with
    | none => logrusNew
    | some l => l
  let s : Server :=
    { started := 0, c := DefaultConfig, log := log, p := [],
      players := Mailbox.openM [], worldLoaded := false,
      listenerBound := false, listenerClosed := false }
  match c with
  | some cfg => { s with c := cfg }
  | none => s

/-- `server.running()`: `atomic.LoadUint32(server.started) == 1`. -/
def Server.running (server : Server) : Bool :=
  server.started == 1

/-- Association-list update embedding `server.p[id] = p` on the Go map. -/
def mapInsert (m : List (UUID × Player)) (k : UUID) (v : Player) :
    List (UUID × Player) :=
  match m with
  | [] => [(k, v)]
  | (k', v') :: rest =>
      if k' = k then (k, v) :: rest else (k', v') :: mapInsert rest k v

/-- Association-list removal embedding `delete(server.p, id)`. -/
def mapDelete (m : List (UUID × Player)) (k : UUID) :
    List (UUID × Player) :=
  match m with
  | [] => []
  | (k', v') :: rest =>
      if k' = k then mapDelete rest k else (k', v') :: mapDelete rest k

/-- Association-list lookup embedding `server.p[id]`. -/
def mapLookup (m : List (UUID × Player)) (k : UUID) : Option Player :=
  match m with
  | [] => none
  | (k', v') :: rest => if k' = k then some v' else mapLookup rest k

/-- `server.PlayerCount()`: `len(server.p)`. -/
def Server.PlayerCount (server : Server) : Int :=
  (server.p.length : Int)

/-- `server.MaxPlayerCount()`: the configured maximum, or
`PlayerCount() + 1` when the configured maximum is 0. -/
def Server.MaxPlayerCount (server : Server) : Int :=
  if server.c.Server.MaximumPlayers = 0 then
    server.PlayerCount + 1
  else
    server.c.Server.MaximumPlayers

/-- `server.Players()`: a point-in-time copy of the registry values. -/
def Server.Players (server : Server) : List Player :=
  server.p.map Prod.snd

/-- `server.Player(uuid)`: registry lookup returning `(player, found)`. -/
def Server.Player (server : Server) (id : UUID) : Option Player × Bool :=
  match mapLookup server.p id with
  | some p => (some p, true)
  | none => (none, false)

/-- Observable events emitted by the server code, in statement order:
`notify id msg delivered` is `p.Disconnect(msg)` in `Close` (`delivered`
records whether the best-effort notice reached the player — the Go code
never inspects it); `worldClose` is `server.world.Close()`;
`listenerClose` is `server.listener.Close()`; `connClose` is
`conn.Close()` in `handleConn`; `listenerDisconnect` is
`server.listener.Disconnect(conn, reason)`; `mailboxSend` is
`server.players <- ...`. -/
inductive Event where
  | notify (id : UUID) (msg : String) (delivered : Bool)
  | worldClose
  | listenerClose
  | connClose
  | listenerDisconnect (reason : String)
  | mailboxSend (id : UUID)
deriving DecidableEq

/-- `text.Yellow()(msg)` of the external text library: the message wrapped
in the yellow formatting code. -/
def textYellow (msg : String) : String :=
  "§e" ++ msg ++ "§r"

/-- Outcome of a public server call: a returned value, a returned error
(`error` wraps the Go error string), or a runtime panic / `log.Fatalf`
process termination. -/
inductive Outcome (α : Type) where
  | ok (a : α)
  | error (msg : String)
  | panicked (msg : String)
  | fatalExit (msg : String)
deriving DecidableEq

/-- Observable behaviour of the external collaborators during one call:
whether `mcdb.New` fails (`loadWorld`), whether `listener.Listen` fails
(`startListening`), whether `world.Close` / `listener.Close` fail
(`Close`), and which disconnect notices get through (`nOk`, never
inspected by the Go code). -/
structure Collab where
  worldOpenErr : Option String
  bindErr : Option String
  worldCloseErr : Option String
  listenerCloseErr : Option String
  nOk : UUID → Bool

/-- `server.startListening()`: records the start time, constructs the
listener from the config snapshot, and calls `Listen("raknet", address)`;
a bind failure is wrapped in `"listening on address failed: ..."` and
returned as an error. -/
def Server.startListening (server : Server) (env : Collab) :
    Outcome Unit × Server :=
  match env.bindErr with
  | some e => (Outcome.error ("listening on address failed: " ++ e), server)
  | none => (Outcome.ok (), { server with listenerBound := true })

/-- `server.loadWorld()`: opens the `mcdb` provider for the configured
world folder; on failure `log.Fatalf` ends the process. -/
def Server.loadWorld (server : Server) (env : Collab) :
    Outcome Unit × Server :=
  match env.worldOpenErr with
  | some e => (Outcome.fatalExit ("error loading world: " ++ e), server)
  | none => (Outcome.ok (), { server with worldLoaded := true })

/-- The common body of `Run` and `Start` up to the accept loop:
panic if already running, set `started` to 1
(`atomic.StoreUint32(server.started, 1)`), load the world, start
listening, returning any bind error to the caller.  `Run` then executes
the accept loop on the calling goroutine and `Start` spawns it; neither
changes any further server state on this call, so their state effect is
identical. -/
def Server.startup (server : Server) (env : Collab) :
    Outcome Unit × Server :=
  if server.running then
    (Outcome.panicked "server already running", server)
  else
    let server := { server with started := 1 }
    match server.loadWorld env with
    | (Outcome.ok _, server) =>
        match server.startListening env with
        | (Outcome.ok _, server) => (Outcome.ok (), server)
        | (r, server) => (r, server)
    | (r, server) => (r, server)

/-- `server.Run()`: the startup sequence, then the accept loop on the
calling goroutine. -/
def Server.Run (server : Server) (env : Collab) : Outcome Unit × Server :=
  server.startup env

/-- `server.Start()`: the startup sequence, then the accept loop on a
fresh goroutine. -/
def Server.Start (server : Server) (env : Collab) : Outcome Unit × Server :=
  server.startup env

/-- `server.Close()`, with its event trace in statement order: panic if
not running; notify every registered player with the yellow-wrapped
configured shutdown message (best-effort: delivery failures are not
inspected); close the world, returning its error; close the listener,
returning its error. -/
def Server.Close (server : Server) (env : Collab) :
    Outcome Unit × List Event × Server :=
  if !server.running then
    (Outcome.panicked "server not yet running", [], server)
  else
    let notices := server.p.map fun q =>
      Event.notify q.1 (textYellow server.c.Server.ShutdownMessage)
        (env.nOk q.1)
    match env.worldCloseErr with
    | some e => (Outcome.error e, notices ++ [Event.worldClose], server)
    | none =>
        let server := { server with listenerClosed := true }
        match env.listenerCloseErr with
        | some e =>
            (Outcome.error e,
             notices ++ [Event.worldClose, Event.listenerClose], server)
        | none =>
            (Outcome.ok (),
             notices ++ [Event.worldClose, Event.listenerClose], server)

/-- Result of a call to `Accept`: the receive `<-server.players` blocks
while the channel is open with no sender ready; a receive from the closed
channel makes Accept return the `"server closed"` error; a received
player is returned without error. -/
inductive AcceptResult where
  | blocked
  | accepted (p : Player)
  | closedErr (msg : String)
deriving DecidableEq

/-- `server.Accept()`: blocking receive from the hand-off mailbox.  A
receive from a closed channel yields `ok == false` and Accept returns
the `"server closed"` error without touching the registry; otherwise the
received player is inserted into the registry under the write lock
(`server.p[p.UUID()] = p`) and returned. -/
def Server.Accept (server : Server) : AcceptResult × Server :=
  match server.players with
  | Mailbox.closedM => (AcceptResult.closedErr "server closed", server)
  | Mailbox.openM [] => (AcceptResult.blocked, server)
  | Mailbox.openM (p :: rest) =>
      (AcceptResult.accepted p,
       { server with players := Mailbox.openM rest,
                     p := mapInsert server.p p.uid p })

/-- The iteration of the accept loop `server.run()` that observes an error
from `listener.Accept` (the listener was closed): it closes the hand-off
mailbox (`close(server.players)`) and returns. -/
def Server.runAcceptError (server : Server) : Server :=
  { server with players := Mailbox.closedM }

/-- `server.handleSessionClose(controllable)`: removes the session's
player from the registry under the write lock. -/
def Server.handleSessionClose (server : Server) (id : UUID) : Server :=
  { server with p := mapDelete server.p id }

/-- The world collaborator state `handleConn`/`createPlayer` read:
`world.Spawn()` (as its `Vec3()`) and `world.Time()`. -/
structure WorldState where
  spawn : Vec3
  time : Int
deriving DecidableEq

/-- The fields of `minecraft.GameData` that the claims concern: the
broadcast player position and world time. -/
structure GameData where
  WorldName : String
  PlayerPosition : Vec3
  Time : Int
deriving DecidableEq

/-- The game-start data built at the top of `handleConn`: in particular
`PlayerPosition: server.world.Spawn().Vec3().Add(mgl32.Vec3{0.5, 0, 0.5})`. -/
def Server.gameData (server : Server) (w : WorldState) : GameData :=
  { WorldName := server.c.World.Name
    PlayerPosition := w.spawn.add ⟨1/2, 0, 1/2⟩
    Time := w.time }

/-- The `switch animation.Type` in `createSkin`: the three recognized
protocol tags map to their skin animation type; any other tag leaves `t`
at the zero value of `var t skin.AnimationType` (the unset/default
variant, per the spec's description of the missing `skin` package). -/
def animationTypeOf (tag : SkinAnimationTag) : AnimationType :=
  match tag with
  | SkinAnimationTag.tagHead => AnimationType.animationHead
  | SkinAnimationTag.tagBody32x32 => AnimationType.animationBody32x32
  | SkinAnimationTag.tagBody128x128 => AnimationType.animationBody128x128
  | SkinAnimationTag.tagOther _ => AnimationType.animationNone

/-- `server.createSkin(data)`, parameterized by the external base64
decoder `b64` and resource-patch decoder `decodeModelConfig`: decodes the
four skin fields independently, builds the skin, then appends one
animation per `AnimatedImageData` entry in input order, its type given by
the three-way switch. -/
def Server.createSkin (b64 : String → List Nat)
    (decodeModelConfig : List Nat → ModelConfig) (data : ClientData) :
    Skin :=
  let skinData := b64 data.SkinData
  let modelData := b64 data.SkinGeometry
  let skinResourcePatch := b64 data.SkinResourcePatch
  let modelConfig := decodeModelConfig skinResourcePatch
  let playerSkin := skinNew data.SkinImageWidth data.SkinImageHeight
  let playerSkin :=
    { playerSkin with Pix := skinData, Model := modelData,
                      ModelConfig := modelConfig }
  { playerSkin with
      Animations := data.AnimatedImageData.map fun animation =>
        let t := animationTypeOf animation.typ
        let anim := NewAnimation animation.ImageWidth animation.ImageHeight t
        { anim with FrameCount := animation.Frames,
                    Pix := b64 animation.Image } }

/-- The identity data of an inbound connection (`conn.IdentityData()`)
plus its client data, as read by `handleConn`/`createPlayer`. -/
structure ConnData where
  Identity : String
  DisplayName : String
  XUID : String
  clientData : ClientData
deriving DecidableEq

/-- `server.createPlayer(id, conn)`:
`player.NewWithSession(DisplayName, XUID, id, createSkin(clientData), s,
world.Spawn().Vec3().Add(mgl32.Vec3{0.5, 0, 0.5}))`. -/
def Server.createPlayer (b64 : String → List Nat)
    (decodeModelConfig : List Nat → ModelConfig) (w : WorldState)
    (id : UUID) (conn : ConnData) : Dragonfly.Player :=
  { name := conn.DisplayName
    xuid := conn.XUID
    uid := id
    skin := Server.createSkin b64 decodeModelConfig conn.clientData
    pos := w.spawn.add ⟨1/2, 0, 1/2⟩ }

/-- Result of the `handleConn` task for one connection: negotiation
failure (peer disconnected with `"Connection timeout."`), malformed
identifier (raw connection closed), or a successful hand-off of the
created player to the mailbox. -/
inductive HandleConnResult where
  | negotiationFailed
  | malformedUUID
  | handedOff (p : Player)
deriving DecidableEq

/-- `server.handleConn(conn)` with its event trace, parameterized by the
external collaborators: `startGameErr` is the outcome of
`conn.StartGame(data)`, `parse` is `uuid.Parse`.  On negotiation failure
the peer is disconnected via the listener and the task returns; on a
malformed identity string the raw connection is closed and the task
returns; otherwise the created player is sent on the hand-off mailbox. -/
def Server.handleConn (startGameErr : Option String)
    (parse : String → Option UUID) (b64 : String → List Nat)
    (decodeModelConfig : List Nat → ModelConfig) (w : WorldState)
    (conn : ConnData) : HandleConnResult × List Event :=
  match startGameErr with
  | some _ =>
      (HandleConnResult.negotiationFailed,
       [Event.listenerDisconnect "Connection timeout."])
  | none =>
      match parse conn.Identity with
      | none => (HandleConnResult.malformedUUID, [Event.connClose])
      | some id =>
          let p := Server.createPlayer b64 decodeModelConfig w id conn
          (HandleConnResult.handedOff p, [Event.mailboxSend id])

/-- Delivery of a successful `handleConn` hand-off into the open mailbox
(the send `server.players <- server.createPlayer(id, conn)` paired with
the buffering of the rendezvous until some `Accept` receives it). -/
def Server.mailboxDeliver (server : Server) (p : Dragonfly.Player) : Server :=
  match server.players with
  | Mailbox.openM pending =>
      { server with players := Mailbox.openM (pending ++ [p]) }
  | Mailbox.closedM => server

/-- One public operation on the server, with the collaborator outcomes it
needs; used to state flag invariants over every operation the code
exposes. -/
inductive Op where
  | opRun (env : Collab)
  | opStart (env : Collab)
  | opClose (env : Collab)
  | opAccept
  | opAcceptError
  | opSessionClose (id : UUID)
  | opDeliver (p : Player)
deriving Inhabited

/-- The state transition of each operation (projecting away returned
values and traces). -/
def Server.step (server : Server) : Op → Server
  | Op.opRun env => (server.Run env).2
  | Op.opStart env => (server.Start env).2
  | Op.opClose env => (server.Close env).2.2
  | Op.opAccept => server.Accept.2
  | Op.opAcceptError => server.runAcceptError
  | Op.opSessionClose id => server.handleSessionClose id
  | Op.opDeliver p => server.mailboxDeliver p

/-! ### Concrete sample values used to instantiate the theorems -/

/-- A sample configuration with maximum player count `m`. -/
def sampleConfig (m : Int) : Config :=
  { Network := { Address := "0.0.0.0:19132" }
    Server := { Name := "df", MaximumPlayers := m,
                ShutdownMessage := "Server is shutting down." }
    World := { Name := "w", Folder := "world", MaximumChunkRadius := 8 } }

/-- A sample player with the given identifier. -/
def samplePlayer (id : UUID) : Player :=
  { name := "Steve", xuid := "42", uid := id, skin := skinNew 64 64,
    pos := ⟨0, 0, 0⟩ }

/-- A freshly constructed server with max count `m` and the given
registered players, as left by `New` followed by registry inserts. -/
def sampleServer (m : Int) (ids : List Nat) : Server :=
  { New (some (sampleConfig m)) none with
      p := ids.map fun i => ((i : UUID), samplePlayer i) }

/-- A `sampleServer` whose flag was set by a completed startup. -/
def sampleRunning (m : Int) (ids : List Nat) : Server :=
  { sampleServer m ids with
      started := 1, worldLoaded := true, listenerBound := true }

/-- Collaborators that all succeed. -/
def collabOK : Collab :=
  { worldOpenErr := none, bindErr := none, worldCloseErr := none,
    listenerCloseErr := none, nOk := fun _ => true }

/-- Whether an event is a player disconnect notice. -/
def Event.isNotify : Event → Bool
  | Event.notify _ _ _ => true
  | _ => false

end Dragonfly

namespace Dragonfly

/-! ### Claim theorems -/

/-- **C6**: `MaxPlayerCount` returns the configured maximum verbatim
whenever it is nonzero, regardless of the current player count; when the
configured maximum is the sentinel 0 it returns `PlayerCount() + 1` for
every current count, so an unbounded server never reports itself as
full. -/
theorem C6_maxPlayerCount (server : Server) :
    (server.c.Server.MaximumPlayers ≠ 0 →
      server.MaxPlayerCount = server.c.Server.MaximumPlayers) ∧
    (server.c.Server.MaximumPlayers = 0 →
      server.MaxPlayerCount = server.PlayerCount + 1 ∧
      server.PlayerCount < server.MaxPlayerCount) := by
  constructor
  · intro h
    simp [Server.MaxPlayerCount, h]
  · intro h
    refine ⟨by simp [Server.MaxPlayerCount, h], ?_⟩
    simp [Server.MaxPlayerCount, h]

/-- Witness for C6 at concrete servers: configured maximum 20 with 0 and
5 players; configured maximum 0 with 0, 1 and 5 players. -/
theorem C6_maxPlayerCount_witness :
    (sampleServer 20 []).MaxPlayerCount = (sampleServer 20 []).c.Server.MaximumPlayers ∧
    (sampleServer 20 [1, 2, 3, 4, 5]).MaxPlayerCount =
      (sampleServer 20 [1, 2, 3, 4, 5]).c.Server.MaximumPlayers ∧
    (sampleServer 0 []).MaxPlayerCount = (sampleServer 0 []).PlayerCount + 1 ∧
    (sampleServer 0 [1]).MaxPlayerCount = (sampleServer 0 [1]).PlayerCount + 1 ∧
    (sampleServer 0 [1, 2, 3, 4, 5]).MaxPlayerCount =
      (sampleServer 0 [1, 2, 3, 4, 5]).PlayerCount + 1 :=
  ⟨(C6_maxPlayerCount (sampleServer 20 [])).1 (by decide),
   (C6_maxPlayerCount (sampleServer 20 [1, 2, 3, 4, 5])).1 (by decide),
   ((C6_maxPlayerCount (sampleServer 0 [])).2 (by decide)).1,
   ((C6_maxPlayerCount (sampleServer 0 [1])).2 (by decide)).1,
   ((C6_maxPlayerCount (sampleServer 0 [1, 2, 3, 4, 5])).2 (by decide)).1⟩

/-- **C10**: `New` with a nil `Config` uses the default configuration and
with a nil logger uses a freshly created default logger; a non-nil
`Config` is copied by value at construction time (`s.c = *c`), so the
server's snapshot is exactly the config value passed at construction —
whatever value the caller's variable is mutated to later, the snapshot
stays this construction-time value. -/
theorem C10_new_defaults (cfg : Config) (lg : Logger)
    (oc : Option Config) (ol : Option Logger) :
    (New none ol).c = DefaultConfig ∧
    (New (some cfg) ol).c = cfg ∧
    (New oc none).log = logrusNew ∧
    (New oc (some lg)).log = lg := by
  refine ⟨rfl, rfl, ?_, ?_⟩
  · cases oc <;> rfl
  · cases oc <;> rfl

/-- **C5**: calling `Run` or `Start` while the server is already running
panics (`"server already running"`), and calling `Close` while the server
is not running panics (`"server not yet running"`); neither is a silent
no-op or a returned error. -/
theorem C5_misuse_panics (s : Server) (env env' : Collab) :
    (s.running = true →
      (s.Run env).1 = Outcome.panicked "server already running" ∧
      (s.Start env).1 = Outcome.panicked "server already running") ∧
    (s.running = false →
      (s.Close env').1 = Outcome.panicked "server not yet running") := by
  constructor
  · intro h
    constructor <;>
      simp [Server.Run, Server.Start, Server.startup, h]
  · intro h
    simp [Server.Close, h]

/-- Witness for C5: a started server double-started, and a fresh server
closed before start. -/
theorem C5_misuse_panics_witness :
    ((sampleRunning 20 []).Run collabOK).1 =
      Outcome.panicked "server already running" ∧
    ((sampleRunning 20 []).Start collabOK).1 =
      Outcome.panicked "server already running" ∧
    ((sampleServer 20 []).Close collabOK).1 =
      Outcome.panicked "server not yet running" :=
  ⟨((C5_misuse_panics (sampleRunning 20 []) collabOK collabOK).1 rfl).1,
   ((C5_misuse_panics (sampleRunning 20 []) collabOK collabOK).1 rfl).2,
   (C5_misuse_panics (sampleServer 20 []) collabOK collabOK).2 rfl⟩

/-- Collaborators whose listener bind fails. -/
def collabBindFail : Collab :=
  { collabOK with bindErr := some "address in use" }

/-- **C2 counterexample**: on a fresh server whose listener bind fails,
`Run` does return the bind failure as an error — but the server *does*
reach the running state: `atomic.StoreUint32(server.started, 1)` runs
before `startListening`, so after the failed `Run` the flag already reads
running, contradicting the claim that the server is still not-running. -/
theorem C2_bindFail_counterexample :
    ((New none none).Run collabBindFail).1 =
      Outcome.error "listening on address failed: address in use" ∧
    ¬ (((New none none).Run collabBindFail).2.running = false) := by
  constructor
  · rfl
  · decide

/-- **C2 amended**: if binding the listener fails, `Start` and `Run`
return that failure as an error to the caller (not a panic and not a
fatal process exit); however, the running flag is stored before the bind
attempt and is not rolled back on failure, so after a failed `Start` or
`Run` the server reads as running. -/
theorem C2_bindFail_amended (s : Server) (env : Collab) (e : String)
    (hrun : s.running = false) (hw : env.worldOpenErr = none)
    (hb : env.bindErr = some e) :
    (s.Run env).1 = Outcome.error ("listening on address failed: " ++ e) ∧
    (s.Start env).1 = Outcome.error ("listening on address failed: " ++ e) ∧
    (s.Run env).2.running = true ∧
    (s.Start env).2.running = true := by
  have h1 : ¬ s.started = 1 := by simpa [Server.running] using hrun
  refine ⟨?_, ?_, ?_, ?_⟩ <;>
    simp [Server.Run, Server.Start, Server.startup, Server.loadWorld,
          Server.startListening, Server.running, h1, hw, hb]

/-- Witness for the amended C2 on a fresh server with a failing bind. -/
theorem C2_bindFail_amended_witness :
    ((New none none).Run collabBindFail).1 =
      Outcome.error ("listening on address failed: " ++ "address in use") ∧
    ((New none none).Run collabBindFail).2.running = true :=
  ⟨(C2_bindFail_amended (New none none) collabBindFail "address in use"
      rfl rfl rfl).1,
   (C2_bindFail_amended (New none none) collabBindFail "address in use"
      rfl rfl rfl).2.2.1⟩

/-- On a server that reads as running, `Close` never takes the
not-running panic branch, whatever the collaborators do. -/
lemma close_no_panic_of_running (t : Server) (env : Collab)
    (h : t.running = true) :
    (t.Close env).1 ≠ Outcome.panicked "server not yet running" := by
  cases hwc : env.worldCloseErr with
  | some e => simp [Server.Close, h, hwc]
  | none =>
      cases hlc : env.listenerCloseErr <;>
        simp [Server.Close, h, hwc, hlc]

/-- **C3**: the running flag is monotone — no operation the server
exposes resets it; `Close` leaves the flag untouched even when a
shutdown step fails; and after a successful `Close` the server still
reads as running, so a second `Close` proceeds (it does not fault with
the not-running panic). -/
theorem C3_running_flag_monotone :
    (∀ (s : Server) (op : Op),
      s.running = true → (s.step op).running = true) ∧
    (∀ (s : Server) (env : Collab),
      ((s.Close env).2.2).started = s.started) ∧
    (∀ (s : Server) (env : Collab), s.running = true →
      env.worldCloseErr = none → env.listenerCloseErr = none →
      (s.Close env).1 = Outcome.ok () ∧
      ((s.Close env).2.2).running = true ∧
      ∀ env' : Collab,
        (((s.Close env).2.2).Close env').1 ≠
          Outcome.panicked "server not yet running") := by
  have hclose : ∀ (s : Server) (env : Collab),
      ((s.Close env).2.2).started = s.started := by
    intro s env
    cases hr : s.running with
    | false => simp [Server.Close, hr]
    | true =>
        cases hwc : env.worldCloseErr with
        | some e => simp [Server.Close, hr, hwc]
        | none =>
            cases hlc : env.listenerCloseErr <;>
              simp [Server.Close, hr, hwc, hlc]
  refine ⟨?_, hclose, ?_⟩
  · intro s op h
    cases op with
    | opRun env =>
        simp only [Server.step, Server.Run, Server.startup, h]
        exact h
    | opStart env =>
        simp only [Server.step, Server.Start, Server.startup, h]
        exact h
    | opClose env =>
        show ((s.Close env).2.2).running = true
        unfold Server.running at h ⊢
        rw [hclose s env]
        exact h
    | opAccept =>
        simp only [Server.step, Server.Accept]
        cases hp : s.players with
        | closedM => exact h
        | openM pending => cases pending <;> simpa using h
    | opAcceptError => simpa [Server.step, Server.runAcceptError] using h
    | opSessionClose id => simpa [Server.step, Server.handleSessionClose] using h
    | opDeliver p =>
        simp only [Server.step, Server.mailboxDeliver]
        cases s.players <;> simpa using h
  · intro s env h hw hl
    have hrun2 : ((s.Close env).2.2).running = true := by
      unfold Server.running at h ⊢
      rw [hclose s env]
      exact h
    refine ⟨?_, hrun2, ?_⟩
    · simp [Server.Close, h, hw, hl]
    · exact fun env' => close_no_panic_of_running _ env' hrun2

/-- Witness for C3 at a running server with two registered players,
closing twice with all collaborators succeeding. -/
theorem C3_running_flag_monotone_witness :
    ((sampleRunning 20 [1, 2]).step Op.opAccept).running = true ∧
    (((sampleRunning 20 [1, 2]).Close collabOK).2.2).started =
      (sampleRunning 20 [1, 2]).started ∧
    ((sampleRunning 20 [1, 2]).Close collabOK).1 = Outcome.ok () ∧
    (((sampleRunning 20 [1, 2]).Close collabOK).2.2).running = true ∧
    ((((sampleRunning 20 [1, 2]).Close collabOK).2.2).Close collabOK).1 ≠
      Outcome.panicked "server not yet running" :=
  ⟨C3_running_flag_monotone.1 (sampleRunning 20 [1, 2]) Op.opAccept rfl,
   C3_running_flag_monotone.2.1 (sampleRunning 20 [1, 2]) collabOK,
   (C3_running_flag_monotone.2.2 (sampleRunning 20 [1, 2]) collabOK rfl rfl rfl).1,
   (C3_running_flag_monotone.2.2 (sampleRunning 20 [1, 2]) collabOK rfl rfl rfl).2.1,
   (C3_running_flag_monotone.2.2 (sampleRunning 20 [1, 2]) collabOK rfl rfl rfl).2.2
     collabOK⟩

/-- **C4**: `Accept` receives from the hand-off mailbox: with a player
pending it returns that player with no error and inserts it into the
registry; with the mailbox closed it returns the `"server closed"` error
(not a blocked receive) and leaves all state unchanged; and once a
successful `Close` has closed the listener and the accept loop has
observed the resulting `listener.Accept` error and closed the mailbox,
every subsequent `Accept` returns that error without blocking. -/
theorem C4_accept (s : Server) :
    (∀ (p : Player) (rest : List Player),
      s.players = Mailbox.openM (p :: rest) →
      (s.Accept).1 = AcceptResult.accepted p ∧
      mapLookup ((s.Accept).2).p p.uid = some p ∧
      ((s.Accept).2).players = Mailbox.openM rest) ∧
    (s.players = Mailbox.closedM →
      s.Accept = (AcceptResult.closedErr "server closed", s)) ∧
    (∀ env : Collab, s.running = true → env.worldCloseErr = none →
      env.listenerCloseErr = none →
      ((s.Close env).2.2).listenerClosed = true ∧
      ((((s.Close env).2.2).runAcceptError).Accept).1 =
        AcceptResult.closedErr "server closed" ∧
      ((((s.Close env).2.2).runAcceptError).Accept).1 ≠
        AcceptResult.blocked) := by
  refine ⟨?_, ?_, ?_⟩
  · intro p rest hp
    refine ⟨by simp [Server.Accept, hp], ?_, by simp [Server.Accept, hp]⟩
    simp only [Server.Accept, hp]
    induction s.p with
    | nil => simp [mapInsert, mapLookup]
    | cons q qs ih =>
        by_cases hq : q.1 = p.uid
        · simp [mapInsert, mapLookup, hq]
        · simpa [mapInsert, mapLookup, hq] using ih
  · intro hp
    simp [Server.Accept, hp]
  · intro env h hw hl
    refine ⟨?_, ?_, ?_⟩
    · simp [Server.Close, h, hw, hl]
    · simp [Server.runAcceptError, Server.Accept]
    · simp [Server.runAcceptError, Server.Accept]

/-- Witness for C4: a running server with one pending hand-off accepts
that player; after a clean close and the accept loop's mailbox close, a
further accept returns the closed-server error. -/
theorem C4_accept_witness :
    ((({ sampleRunning 0 [] with
          players := Mailbox.openM [samplePlayer 9] } : Server).Accept).1 =
        AcceptResult.accepted (samplePlayer 9)) ∧
    mapLookup ((({ sampleRunning 0 [] with
          players := Mailbox.openM [samplePlayer 9] } : Server).Accept).2).p
        (samplePlayer 9).uid = some (samplePlayer 9) ∧
    ({ sampleRunning 0 [] with players := Mailbox.closedM } : Server).Accept =
      (AcceptResult.closedErr "server closed",
       { sampleRunning 0 [] with players := Mailbox.closedM }) ∧
    (((((sampleRunning 0 []).Close collabOK).2.2).runAcceptError).Accept).1 =
      AcceptResult.closedErr "server closed" :=
  ⟨((C4_accept { sampleRunning 0 [] with
        players := Mailbox.openM [samplePlayer 9] }).1 (samplePlayer 9) []
      rfl).1,
   ((C4_accept { sampleRunning 0 [] with
        players := Mailbox.openM [samplePlayer 9] }).1 (samplePlayer 9) []
      rfl).2.1,
   (C4_accept { sampleRunning 0 [] with players := Mailbox.closedM }).2.1 rfl,
   ((C4_accept (sampleRunning 0 [])).2.2 collabOK rfl rfl rfl).2.1⟩

/-- **C7**: when the declared identity string of a connection fails to
parse as a 128-bit identifier, `handleConn` closes the raw connection and
terminates: the trace is exactly the connection close — it contains no
mailbox send — and the result is not a hand-off, so no player of this
connection can ever be inserted into the registry (insertion happens only
when `Accept` receives a handed-off player); the server state passed in
is not touched by the task. -/
theorem C7_malformed_uuid (parse : String → Option UUID)
    (b64 : String → List Nat) (dmc : List Nat → ModelConfig)
    (w : WorldState) (conn : ConnData)
    (h : parse conn.Identity = none) :
    Server.handleConn none parse b64 dmc w conn =
      (HandleConnResult.malformedUUID, [Event.connClose]) ∧
    Event.connClose ∈ (Server.handleConn none parse b64 dmc w conn).2 ∧
    (∀ e ∈ (Server.handleConn none parse b64 dmc w conn).2,
      ∀ id : UUID, e ≠ Event.mailboxSend id) ∧
    (∀ p : Player,
      (Server.handleConn none parse b64 dmc w conn).1 ≠
        HandleConnResult.handedOff p) := by
  refine ⟨by simp [Server.handleConn, h], ?_, ?_, ?_⟩ <;>
    simp [Server.handleConn, h]

/-- Witness for C7: a parser rejecting every string, on a concrete
connection. -/
theorem C7_malformed_uuid_witness :
    Server.handleConn none (fun _ => none) (fun _ => []) (fun _ => ⟨[]⟩)
        ⟨⟨0, 64, 0⟩, 0⟩
        ⟨"not-a-uuid", "Steve", "42", ⟨"", "", "", 64, 64, []⟩⟩ =
      (HandleConnResult.malformedUUID, [Event.connClose]) :=
  (C7_malformed_uuid (fun _ => none) (fun _ => []) (fun _ => ⟨[]⟩)
      ⟨⟨0, 64, 0⟩, 0⟩
      ⟨"not-a-uuid", "Steve", "42", ⟨"", "", "", 64, 64, []⟩⟩ rfl).1

/-- **C8**: the player position broadcast in the game-start data and the
spawn position stored in the final `Player` value are both the world's
spawn point offset by exactly +0.5 on each horizontal axis (x and z) and
by 0 on the vertical axis (y), and the two computed positions are
identical. -/
theorem C8_spawn_offset (s : Server) (w : WorldState)
    (b64 : String → List Nat) (dmc : List Nat → ModelConfig)
    (id : UUID) (conn : ConnData) :
    (s.gameData w).PlayerPosition.x = w.spawn.x + 1/2 ∧
    (s.gameData w).PlayerPosition.y = w.spawn.y ∧
    (s.gameData w).PlayerPosition.z = w.spawn.z + 1/2 ∧
    (Server.createPlayer b64 dmc w id conn).pos.x = w.spawn.x + 1/2 ∧
    (Server.createPlayer b64 dmc w id conn).pos.y = w.spawn.y ∧
    (Server.createPlayer b64 dmc w id conn).pos.z = w.spawn.z + 1/2 ∧
    (s.gameData w).PlayerPosition = (Server.createPlayer b64 dmc w id conn).pos := by
  refine ⟨?_, ?_, ?_, ?_, ?_, ?_, rfl⟩ <;>
    simp [Server.gameData, Server.createPlayer, Vec3.add]

/-- **C9**: `createSkin` appends exactly one animation per
`AnimatedImageData` entry, in input order, and the variant type of the
i-th animation is the three-way tag mapping of the i-th entry's tag: the
three recognized tags map to the corresponding skin animation types and
every other tag maps to the unset/default type — no entry is rejected. -/
theorem C9_animation_mapping (b64 : String → List Nat)
    (dmc : List Nat → ModelConfig) (data : ClientData) :
    (Server.createSkin b64 dmc data).Animations.length =
      data.AnimatedImageData.length ∧
    (Server.createSkin b64 dmc data).Animations.map Animation.typ =
      data.AnimatedImageData.map (fun a => animationTypeOf a.typ) ∧
    animationTypeOf SkinAnimationTag.tagHead = AnimationType.animationHead ∧
    animationTypeOf SkinAnimationTag.tagBody32x32 =
      AnimationType.animationBody32x32 ∧
    animationTypeOf SkinAnimationTag.tagBody128x128 =
      AnimationType.animationBody128x128 ∧
    ∀ n : Nat, animationTypeOf (SkinAnimationTag.tagOther n) =
      AnimationType.animationNone := by
  refine ⟨?_, ?_, rfl, rfl, rfl, fun _ => rfl⟩
  · simp [Server.createSkin]
  · simp [Server.createSkin, NewAnimation, Function.comp]

/-- Whether an event is something other than the listener close. -/
def Event.isNotListenerClose : Event → Bool
  | Event.listenerClose => false
  | _ => true

/-- In a list split as `A ++ B` with a Boolean predicate true on all of
`A` and false on all of `B`, every index whose element satisfies the
predicate comes strictly before every index whose element falsifies it. -/
lemma pred_index_lt {α : Type} (p : α → Bool) (T A B : List α)
    (hT : T = A ++ B)
    (hA : ∀ e ∈ A, p e = true) (hB : ∀ e ∈ B, p e = false)
    (i j : Fin T.length)
    (hi : p (T.get i) = true) (hj : p (T.get j) = false) :
    (i : Nat) < (j : Nat) := by
  subst hT
  have hiA : (i : Nat) < A.length := by
    by_contra hc
    push_neg at hc
    have hlen : (i : Nat) < A.length + B.length := by
      simpa using i.isLt
    have hsub : (i : Nat) - A.length < B.length := by omega
    have hx : (A ++ B).get i = B.get ⟨(i : Nat) - A.length, hsub⟩ := by
      simp [List.getElem_append_right hc]
    have hmem : (A ++ B).get i ∈ B := by
      rw [hx]
      exact List.get_mem _ _ _
    rw [hB _ hmem] at hi
    simp at hi
  have hjB : A.length ≤ (j : Nat) := by
    by_contra hc
    push_neg at hc
    have hx : (A ++ B).get j = A.get ⟨(j : Nat), hc⟩ := by
      simp [List.getElem_append_left hc]
    have hmem : (A ++ B).get j ∈ A := by
      rw [hx]
      exact List.get_mem _ _ _
    rw [hA _ hmem] at hj
    simp at hj
  omega

/-- **C1**: `Close` on a running server runs its three steps in strict
order.  (1) Every player currently in the registry is sent a disconnect
notice carrying the yellow-formatted configured shutdown text, and the
returned outcome is insensitive to which of those best-effort notices are
delivered.  (2) The world collaborator's close is invoked, and every
notice strictly precedes it in the event trace (it is never invoked
before all currently registered players have been notified); its error is
propagated to the caller, in which case the listener is not closed.
(3) Only if the world closed cleanly is the Listener Adapter closed —
strictly after the world close in the trace — with its error propagated,
and a clean run returns no error. -/
theorem C1_close_order (s : Server) (env : Collab) (h : s.running = true) :
    (∀ q ∈ s.p,
      Event.notify q.1 (textYellow s.c.Server.ShutdownMessage) (env.nOk q.1)
        ∈ (s.Close env).2.1) ∧
    (∀ f : UUID → Bool,
      (s.Close { env with nOk := f }).1 = (s.Close env).1) ∧
    Event.worldClose ∈ (s.Close env).2.1 ∧
    (∀ i j : Fin ((s.Close env).2.1).length,
      Event.isNotify (((s.Close env).2.1).get i) = true →
      ((s.Close env).2.1).get j = Event.worldClose →
      (i : Nat) < (j : Nat)) ∧
    (∀ e : String, env.worldCloseErr = some e →
      (s.Close env).1 = Outcome.error e ∧
      Event.listenerClose ∉ (s.Close env).2.1) ∧
    (env.worldCloseErr = none →
      Event.listenerClose ∈ (s.Close env).2.1 ∧
      (∀ i j : Fin ((s.Close env).2.1).length,
        ((s.Close env).2.1).get i = Event.worldClose →
        ((s.Close env).2.1).get j = Event.listenerClose →
        (i : Nat) < (j : Nat)) ∧
      (∀ e : String, env.listenerCloseErr = some e →
        (s.Close env).1 = Outcome.error e) ∧
      (env.listenerCloseErr = none → (s.Close env).1 = Outcome.ok ())) := by
  have hnok : ∀ f : UUID → Bool,
      (s.Close { env with nOk := f }).1 = (s.Close env).1 := by
    intro f
    cases hwc : env.worldCloseErr with
    | some e => simp [Server.Close, h, hwc]
    | none =>
        cases hlc : env.listenerCloseErr <;>
          simp [Server.Close, h, hwc, hlc]
  have hAnotify : ∀ e ∈ s.p.map fun q =>
      Event.notify q.1 (textYellow s.c.Server.ShutdownMessage) (env.nOk q.1),
      Event.isNotify e = true := by
    intro e he
    simp only [List.mem_map] at he
    obtain ⟨q, _, rfl⟩ := he
    rfl
  have hAnotLC : ∀ e ∈ s.p.map fun q =>
      Event.notify q.1 (textYellow s.c.Server.ShutdownMessage) (env.nOk q.1),
      Event.isNotListenerClose e = true := by
    intro e he
    simp only [List.mem_map] at he
    obtain ⟨q, _, rfl⟩ := he
    rfl
  obtain ⟨e0, hwc⟩ | hwc :
      (∃ e, env.worldCloseErr = some e) ∨ env.worldCloseErr = none := by
    cases env.worldCloseErr with
    | none => exact Or.inr rfl
    | some e => exact Or.inl ⟨e, rfl⟩
  · have hT : (s.Close env).2.1 =
          (s.p.map fun q =>
            Event.notify q.1 (textYellow s.c.Server.ShutdownMessage)
              (env.nOk q.1)) ++ [Event.worldClose] := by
      simp [Server.Close, h, hwc]
    have hres : (s.Close env).1 = Outcome.error e0 := by
      simp [Server.Close, h, hwc]
    refine ⟨?_, hnok, ?_, ?_, ?_, ?_⟩
    · intro q hq
      rw [hT]
      exact List.mem_append_left _ (List.mem_map_of_mem _ hq)
    · rw [hT]
      exact List.mem_append_right _ (by simp)
    · intro i j hi hj
      refine pred_index_lt Event.isNotify _ _ [Event.worldClose] hT
        hAnotify (by simp [Event.isNotify]) i j hi ?_
      rw [hj]
      rfl
    · intro e he
      rw [hwc] at he
      injection he with he
      subst he
      refine ⟨hres, ?_⟩
      rw [hT]
      simp [List.mem_append, List.mem_map]
    · intro hnone
      rw [hwc] at hnone
      cases hnone
  · have hT : (s.Close env).2.1 =
        (s.p.map fun q =>
          Event.notify q.1 (textYellow s.c.Server.ShutdownMessage)
            (env.nOk q.1)) ++ [Event.worldClose, Event.listenerClose] := by
      cases hlc : env.listenerCloseErr <;>
        simp [Server.Close, h, hwc, hlc]
    have hT2 : (s.Close env).2.1 =
        ((s.p.map fun q =>
          Event.notify q.1 (textYellow s.c.Server.ShutdownMessage)
            (env.nOk q.1)) ++ [Event.worldClose]) ++ [Event.listenerClose] := by
      rw [hT, List.append_assoc]
      rfl
    refine ⟨?_, hnok, ?_, ?_, ?_, ?_⟩
    · intro q hq
      rw [hT]
      exact List.mem_append_left _ (List.mem_map_of_mem _ hq)
    · rw [hT]
      exact List.mem_append_right _ (by simp)
    · intro i j hi hj
      refine pred_index_lt Event.isNotify _ _
        [Event.worldClose, Event.listenerClose] hT hAnotify
        (by simp [Event.isNotify]) i j hi ?_
      rw [hj]
      rfl
    · intro e he
      rw [hwc] at he
      cases he
    · intro _
      refine ⟨?_, ?_, ?_, ?_⟩
      · rw [hT]
        exact List.mem_append_right _ (by simp)
      · intro i j hi hj
        refine pred_index_lt Event.isNotListenerClose _ _
          [Event.listenerClose] hT2 ?_ (by simp [Event.isNotListenerClose])
          i j ?_ ?_
        · intro e he
          rcases List.mem_append.mp he with hl | hr
          · exact hAnotLC e hl
          · simp only [List.mem_singleton] at hr
            subst hr
            rfl
        · rw [hi]
          rfl
        · rw [hj]
          rfl
      · intro e he
        simp [Server.Close, h, hwc, he]
      · intro he
        simp [Server.Close, h, hwc, he]

/-- Witness for C1 on a concrete running server with two registered
players, a failing notice to one of them, and succeeding world and
listener closes. -/
theorem C1_close_order_witness :
    (Event.notify (1 : UUID)
        (textYellow (sampleRunning 20 [1, 2]).c.Server.ShutdownMessage)
        true ∈ ((sampleRunning 20 [1, 2]).Close collabOK).2.1) ∧
    Event.worldClose ∈ ((sampleRunning 20 [1, 2]).Close collabOK).2.1 ∧
    Event.listenerClose ∈ ((sampleRunning 20 [1, 2]).Close collabOK).2.1 ∧
    ((sampleRunning 20 [1, 2]).Close collabOK).1 = Outcome.ok () :=
  ⟨(C1_close_order (sampleRunning 20 [1, 2]) collabOK rfl).1 (1, samplePlayer 1)
      (by simp [sampleRunning, sampleServer, samplePlayer]),
   (C1_close_order (sampleRunning 20 [1, 2]) collabOK rfl).2.2.1,
   ((C1_close_order (sampleRunning 20 [1, 2]) collabOK rfl).2.2.2.2.2 rfl).1,
   ((C1_close_order (sampleRunning 20 [1, 2]) collabOK rfl).2.2.2.2.2 rfl).2.2.2
      rfl⟩

end Dragonfly
